import Mathlib

/-!
Shallow embedding of the decision engine of the traefik-modsecurity-plugin
repository (body-capture guard, verdict cache, forwarding coordinator, and
the spec-described offender jail), together with theorems settling the
frozen claims about it.

Go machine integers are modelled as Nat or Int with explicit reductions
modulo 2 to the 32 where overflow matters (the SHA-256 core).  Fallible Go
code is modelled with Option; a Go runtime panic (nil dereference) is an
explicit constructor of the result type.
-/

namespace ModsecPlugin

/-- Go error values the plugin code distinguishes: io.EOF,
io.ErrUnexpectedEOF, and any other error carrying a message. -/
inductive GoError where
  | eof
  | unexpectedEof
  | other (msg : String)
deriving DecidableEq, Repr

/-! ## SHA-256 (pure, executable)

The cache key of the source is a sha256 digest rendered as lowercase hex
(crypto/sha256 plus fmt.Sprintf with the x verb).  The hash is implemented
here over byte lists, with 32-bit words as Nat reduced modulo 2^32. -/

/-- Reduce a Nat to a 32-bit word. -/
def w32 (n : Nat) : Nat := n % 4294967296

/-- Rotate a 32-bit word right by n bits. -/
def rotr32 (x n : Nat) : Nat := (x >>> n) ||| w32 (x <<< (32 - n))

/-- SHA-256 choice function. -/
def sha2ch (x y z : Nat) : Nat := (x &&& y) ^^^ ((x ^^^ 4294967295) &&& z)

/-- SHA-256 majority function. -/
def sha2maj (x y z : Nat) : Nat := (x &&& y) ^^^ (x &&& z) ^^^ (y &&& z)

/-- SHA-256 big sigma 0. -/
def bigS0 (x : Nat) : Nat := rotr32 x 2 ^^^ rotr32 x 13 ^^^ rotr32 x 22

/-- SHA-256 big sigma 1. -/
def bigS1 (x : Nat) : Nat := rotr32 x 6 ^^^ rotr32 x 11 ^^^ rotr32 x 25

/-- SHA-256 small sigma 0. -/
def smallS0 (x : Nat) : Nat := rotr32 x 7 ^^^ rotr32 x 18 ^^^ (x >>> 3)

/-- SHA-256 small sigma 1. -/
def smallS1 (x : Nat) : Nat := rotr32 x 17 ^^^ rotr32 x 19 ^^^ (x >>> 10)

/-- The 64 SHA-256 round constants (FIPS 180-4), written in decimal. -/
def sha2K : List Nat :=
  [1116352408, 1899447441, 3049323471, 3921009573, 961987163, 1508970993,
   2453635748, 2870763221, 3624381080, 310598401, 607225278, 1426881987,
   1925078388, 2162078206, 2614888103, 3248222580, 3835390401, 4022224774,
   264347078, 604807628, 770255983, 1249150122, 1555081692, 1996064986,
   2554220882, 2821834349, 2952996808, 3210313671, 3336571891, 3584528711,
   113926993, 338241895, 666307205, 773529912, 1294757372, 1396182291,
   1695183700, 1986661051, 2177026350, 2456956037, 2730485921, 2820302411,
   3259730800, 3345764771, 3516065817, 3600352804, 4094571909, 275423344,
   430227734, 506948616, 659060556, 883997877, 958139571, 1322822218,
   1537002063, 1747873779, 1955562222, 2024104815, 2227730452, 2361852424,
   2428436474, 2756734187, 3204031479, 3329325298]

/-- Running SHA-256 hash state: eight 32-bit words. -/
structure Sha2State where
  a : Nat
  b : Nat
  c : Nat
  d : Nat
  e : Nat
  f : Nat
  g : Nat
  h : Nat
deriving DecidableEq, Repr

/-- SHA-256 initial hash value, written in decimal. -/
def sha2Init : Sha2State :=
  ⟨1779033703, 3144134277, 1013904242, 2773480762,
   1359893119, 2600822924, 528734635, 1541459225⟩

/-- Big-endian byte rendering of a Nat, fixed width in bytes. -/
def beBytes : Nat → Nat → List Nat
  | 0, _ => []
  | c + 1, n => beBytes c (n >>> 8) ++ [n % 256]

/-- SHA-256 message padding: append 0x80, zeros, and the 64-bit big-endian
bit length, reaching a multiple of 64 bytes. -/
def padMessage (msg : List Nat) : List Nat :=
  let L := msg.length
  let k := (119 - L % 64) % 64
  msg ++ 0x80 :: List.replicate k 0 ++ beBytes 8 (8 * L)

/-- Split a byte list into 64-byte blocks, with fuel for structural
recursion (the fuel is always sufficient since each step drops 64 bytes). -/
def toBlocksF : Nat → List Nat → List (List Nat)
  | _, [] => []
  | 0, _ => []
  | fuel + 1, l => l.take 64 :: toBlocksF fuel (l.drop 64)

/-- Split a byte list into 64-byte blocks. -/
def toBlocks (l : List Nat) : List (List Nat) := toBlocksF l.length l

/-- Combine groups of four bytes into big-endian 32-bit words. -/
def toWords : List Nat → List Nat
  | b0 :: b1 :: b2 :: b3 :: rest =>
      ((((b0 <<< 8) ||| b1) <<< 8 ||| b2) <<< 8 ||| b3) :: toWords rest
  | _ => []

/-- Extend the message schedule: the accumulator holds the words produced
so far in reverse order, so its head is the previous word. -/
def extendW : Nat → List Nat → List Nat
  | 0, acc => acc.reverse
  | n + 1, acc =>
      let next := w32 (smallS1 (acc.getD 1 0) + acc.getD 6 0 +
                       smallS0 (acc.getD 14 0) + acc.getD 15 0)
      extendW n (next :: acc)

/-- Extend the sixteen block words to the 64-entry message schedule. -/
def buildW (w16 : List Nat) : List Nat := extendW 48 w16.reverse

/-- One SHA-256 compression round. -/
def sha2Round (s : Sha2State) (kw : Nat × Nat) : Sha2State :=
  let t1 := w32 (s.h + bigS1 s.e + sha2ch s.e s.f s.g + kw.1 + kw.2)
  let t2 := w32 (bigS0 s.a + sha2maj s.a s.b s.c)
  ⟨w32 (t1 + t2), s.a, s.b, s.c, w32 (s.d + t1), s.e, s.f, s.g⟩

/-- Process one 64-byte block, updating the hash state. -/
def processBlock (s : Sha2State) (block : List Nat) : Sha2State :=
  let w := buildW (toWords block)
  let r := (sha2K.zip w).foldl sha2Round s
  ⟨w32 (s.a + r.a), w32 (s.b + r.b), w32 (s.c + r.c), w32 (s.d + r.d),
   w32 (s.e + r.e), w32 (s.f + r.f), w32 (s.g + r.g), w32 (s.h + r.h)⟩

/-- SHA-256 of a byte list, as a 32-byte list. -/
def sha256 (msg : List Nat) : List Nat :=
  let s := (toBlocks (padMessage msg)).foldl processBlock sha2Init
  beBytes 4 s.a ++ beBytes 4 s.b ++ beBytes 4 s.c ++ beBytes 4 s.d ++
  beBytes 4 s.e ++ beBytes 4 s.f ++ beBytes 4 s.g ++ beBytes 4 s.h

/-- Lowercase hexadecimal digit characters, indexed 0 to 15. -/
def hexChar : Nat → Char
  | 0 => '0' | 1 => '1' | 2 => '2' | 3 => '3' | 4 => '4' | 5 => '5' | 6 => '6' | 7 => '7'
  | 8 => '8' | 9 => '9' | 10 => 'a' | 11 => 'b' | 12 => 'c' | 13 => 'd' | 14 => 'e' | 15 => 'f'
  | _ => '0'

/-- Two lowercase hex digits of one byte (the fmt x verb on a byte slice). -/
def byteHex (b : Nat) : List Char := [hexChar (b / 16 % 16), hexChar (b % 16)]

/-- Render a byte list as a lowercase hexadecimal string. -/
def bytesToHex (l : List Nat) : String := ⟨(l.map byteHex).flatten⟩

/-- UTF-8 encoding of one character, as Go byte conversion of a string does. -/
def utf8Char (c : Char) : List Nat :=
  let n := c.toNat
  if n < 0x80 then [n]
  else if n < 0x800 then [0xc0 ||| (n >>> 6), 0x80 ||| (n &&& 63)]
  else if n < 0x10000 then
    [0xe0 ||| (n >>> 12), 0x80 ||| ((n >>> 6) &&& 63), 0x80 ||| (n &&& 63)]
  else
    [0xf0 ||| (n >>> 18), 0x80 ||| ((n >>> 12) &&& 63),
     0x80 ||| ((n >>> 6) &&& 63), 0x80 ||| (n &&& 63)]

/-- UTF-8 bytes of a string, modelling the Go byte-slice conversion. -/
def utf8 (s : String) : List Nat := (s.data.map utf8Char).flatten

/-- Go string conversion of a byte slice, exact for the ASCII texts that
occur in this development (HTTP status texts). -/
def bytesToStr (l : List Nat) : String := ⟨l.map Char.ofNat⟩

/-! ## String helpers

List-based models of the Go string functions the plugin uses
(strings.Split on one-character separators, strings.EqualFold via
lowering, prefix tests), written by structural recursion so that concrete
evaluations reduce. -/

/-- Split a character list at every occurrence of the separator. -/
def splitChar (sep : Char) : List Char → List (List Char)
  | [] => [[]]
  | c :: rest =>
      match splitChar sep rest with
      | [] => [[]]
      | seg :: segs => if c = sep then [] :: seg :: segs else (c :: seg) :: segs

/-- strings.Split with a one-character separator. -/
def splitOnChar (sep : Char) (s : String) : List String :=
  (splitChar sep s.data).map (fun l => ⟨l⟩)

/-- Whether the first list begins with the second. -/
def listStartsWith : List Char → List Char → Bool
  | _, [] => true
  | [], _ :: _ => false
  | c :: cs, p :: ps => c == p && listStartsWith cs ps

/-- Whether the string s begins with the string p. -/
def strStartsWith (s p : String) : Bool := listStartsWith s.data p.data

/-- ASCII lowering of a string (strings.EqualFold on the plugin's inputs
is lowering both sides and comparing). -/
def lowerStr (s : String) : String := ⟨s.data.map Char.toLower⟩

/-- Join strings with a separator between elements. -/
def joinWith (sep : String) : List String → String
  | [] => ""
  | [x] => x
  | x :: y :: rest => x ++ sep ++ joinWith sep (y :: rest)

/-! ## Data model -/

/-- An io.ReadCloser as the plugin observes it: the bytes it will yield,
the terminal event after those bytes (none is a clean io.EOF), and the
error its Close method returns. -/
structure BodyStream where
  data : List Nat
  readErr : Option GoError
  closeErr : Option GoError
deriving DecidableEq, Repr

/-- The stream io.NopCloser(bytes reader over b): yields b, then a clean
EOF; Close returns nil. -/
def bufferStream (b : List Nat) : BodyStream := ⟨b, none, none⟩

/-- The fields of http.Request the plugin reads.  The header association
list is kept in the enumeration order a Go map range would produce for
this particular evaluation; a nil body is the none case. -/
structure Request where
  method : String
  requestURI : String
  host : String
  remoteAddr : String
  header : List (String × List String)
  contentLength : Int
  transferEncoding : List String
  body : Option BodyStream
deriving DecidableEq, Repr

/-- The fields of http.Response the plugin reads and forwards: status
code, header mapping, and the body bytes a full read would yield. -/
structure Response where
  statusCode : Int
  header : List (String × List String)
  body : List Nat
deriving DecidableEq, Repr

/-- CacheKeyConditions of the source: allowed methods and the optional
no-body restriction. -/
structure CacheKeyConditions where
  methods : List String
  noBody : Option Bool
deriving DecidableEq, Repr

/-- CacheKeyOptions of the source: optional header, host and remote
address inclusion in the cache key. -/
structure CacheKeyOptions where
  includeHeaders : Option Bool
  headers : List String
  includeHost : Option Bool
  includeRemoteAddress : Option Bool
deriving DecidableEq, Repr

/-- Ambient time environment for the Expires blacklist rule: the current
instant (time.Now) and the RFC1123 parser (some t when parsing succeeds,
with t comparable to now). -/
structure TimeEnv where
  now : Int
  parseRFC1123 : String → Option Int

/-- The Modsecurity middleware fields the decision engine reads. -/
structure Modsecurity where
  maxBodySize : Int
  cacheEnabled : Bool
  cacheConditions : CacheKeyConditions
  cacheKey : CacheKeyOptions
deriving Repr

/-- Observable steps of one coordinator run, in execution order. -/
inductive Ev where
  | bodyCapture
  | cacheLookup
  | cacheStore
  | inspectorCall
  | poolGet
  | poolPut
  | statusRead
  | respForward
  | nextCall
  | jailCheck
deriving DecidableEq, Repr

/-- The verdict cache: derived key to cached status code, newest first. -/
abbrev CacheState := List (String × Int)

/-- cache.Get of go-cache, restricted to present-or-absent. -/
def cacheGet (c : CacheState) (k : String) : Option Int :=
  (c.find? (fun kv => kv.1 == k)).map (fun kv => kv.2)

/-- cache.SetDefault of go-cache: overwrite the entry for the key. -/
def cacheSetDefault (c : CacheState) (k : String) (v : Int) : CacheState :=
  (k, v) :: c.filter (fun kv => kv.1 != k)

/-- The external inspection service: PrepareForwardedRequest builds the
proxied request and performs the blocking HTTP call; the service is
opaque, answering a response or failing (none). -/
abbrev Inspector := Request → Option Response

/-! ## Cache key derivation -/

/-- Modelled from the spec: the list membership helper contains, whose
definition is absent from src/; reports whether a string occurs in a
string list. -/
def contains (l : List String) (s : String) : Bool := l.contains s

/-- The blacklistHeaders set of the source. -/
def blacklistHeaders (k : String) : Bool :=
  k == "Authorization" || k == "Set-Cookie" || k == "Cache-Control" ||
  k == "Pragma" || k == "Expires"

/-- First element of a header value slice (the source indexes values at
zero; parsed requests never carry an empty value slice). -/
def firstValue (vs : List String) : String := vs.headD ""

/-- isHeaderBlacklisted of the source: a blacklisted name is excluded
unconditionally except that Cache-Control is excluded only when its
comma-split value list contains no-store, Pragma only when the value is
no-cache, and Expires only when unparseable or parsed to an instant
before now. -/
def isHeaderBlacklisted (env : TimeEnv) (headerKey headerValue : String) : Bool :=
  if blacklistHeaders headerKey then
    if headerKey == "Cache-Control" then contains (splitOnChar ',' headerValue) "no-store"
    else if headerKey == "Pragma" then headerValue == "no-cache"
    else if headerKey == "Expires" then
      match env.parseRFC1123 headerValue with
      | some t => decide (t < env.now)
      | none => true
    else true
  else false

/-- Modelled from the spec: removeTrackingParams, whose definition is
absent from src/; strips tracking query parameters (names beginning with
utm underscore, fbclid, gclid) from the request URI and leaves URIs
without a query string unchanged. -/
def isTrackingParam (p : String) : Bool :=
  let name := (splitOnChar '=' p).headD ""
  strStartsWith name "utm_" || name == "fbclid" || name == "gclid"

/-- Modelled from the spec: removeTrackingParams, see isTrackingParam. -/
def removeTrackingParams (uri : String) : String :=
  match splitOnChar '?' uri with
  | [path, query] =>
      let kept := (splitOnChar '&' query).filter (fun p => !isTrackingParam p)
      if kept.isEmpty then path else path ++ "?" ++ joinWith "&" kept
  | _ => uri

/-- Bytes one header entry feeds the hasher in generateCacheKey: name
then every value in order, provided the name is whitelisted and its first
value is not blacklisted; otherwise nothing. -/
def headerContribution (env : TimeEnv) (options : CacheKeyOptions)
    (kv : String × List String) : List Nat :=
  if contains options.headers kv.1 then
    if !(isHeaderBlacklisted env kv.1 (firstValue kv.2)) then
      utf8 kv.1 ++ (kv.2.map utf8).flatten
    else []
  else []

/-- The byte sequence generateCacheKey feeds the sha256 hasher: method,
cleaned URI, then (under the twice-repeated header-inclusion test of the
source) the contribution of each header entry in enumeration order, then
optionally host and remote address. -/
def generateCacheKeyBytes (env : TimeEnv) (req : Request)
    (options : CacheKeyOptions) : List Nat :=
  let headerPart :=
    if options.includeHeaders = some true then
      if options.includeHeaders = some true then
        if 0 < options.headers.length then
          (req.header.map (headerContribution env options)).flatten
        else []
      else []
    else []
  let hostPart := if options.includeHost = some true then utf8 req.host else []
  let remotePart :=
    if options.includeRemoteAddress = some true then utf8 req.remoteAddr else []
  utf8 req.method ++ utf8 (removeTrackingParams req.requestURI) ++
    headerPart ++ hostPart ++ remotePart

/-- generateCacheKey of the source: sha256 over the selected components,
rendered as lowercase hex. -/
def generateCacheKey (env : TimeEnv) (req : Request)
    (options : CacheKeyOptions) : String :=
  bytesToHex (sha256 (generateCacheKeyBytes env req options))

/-! ## Caching conditions and the verdict cache -/

/-- Check of CacheKeyConditions: a non-empty method list must contain the
request method, and when the no-body flag is set it must match the
content-length-is-zero observation. -/
def CacheKeyConditions.Check (c : CacheKeyConditions) (req : Request) : Bool :=
  if 0 < c.methods.length && !(contains c.methods req.method) then false
  else
    match c.noBody with
    | some nb => if nb != decide (req.contentLength = 0) then false else true
    | none => true

/-- Model of the Go standard library http.StatusText table, restricted to
the codes this development exercises; unknown codes give the empty string
as in the standard library. -/
def statusText (c : Int) : String :=
  if c = 200 then "OK"
  else if c = 400 then "Bad Request"
  else if c = 403 then "Forbidden"
  else if c = 404 then "Not Found"
  else if c = 413 then "Request Entity Too Large"
  else if c = 429 then "Too Many Requests"
  else if c = 500 then "Internal Server Error"
  else if c = 502 then "Bad Gateway"
  else ""

/-- http.Error of the standard library: plain-text headers and the
message followed by a newline. -/
def httpError (code : Int) (msg : String) : Response :=
  ⟨code,
   [("Content-Type", ["text/plain; charset=utf-8"]),
    ("X-Content-Type-Options", ["nosniff"])],
   utf8 (msg ++ "\n")⟩

/-- newPooledCacheResponse of the source: a response drawn from the pool
(header empty, freshly reset), given the status code and body, with the
Status-Text header set to the body text when non-empty, else to the
standard status text. -/
def newPooledCacheResponse (statusCode : Int) (body : List Nat) : Response :=
  let st := statusText statusCode
  let st := if 0 < body.length then bytesToStr body else st
  { statusCode := statusCode, header := [("Status-Text", [st])], body := body }

/-- putResponse of the source, as its effect on the response object: the
body is closed (a no-op on the NopCloser over a bytes reader) and the
header is replaced by a fresh empty map; the object then enters the pool
(pool traffic is recorded in the event trace). -/
def putResponse (resp : Response) : Response := { resp with header := [] }

/-- GetCachedResponse of the source.  On a hit a pooled synthetic
response is built and putResponse runs as a deferred call when the
function returns, so the caller receives the already-released object.  On
a miss the inspector is called and its status code modulo 1000 (Go
truncating rem) is stored. -/
def GetCachedResponse (a : Modsecurity) (env : TimeEnv) (cache : CacheState)
    (insp : Inspector) (req : Request) : Option Response × CacheState × List Ev :=
  let cacheKey := generateCacheKey env req a.cacheKey
  match cacheGet cache cacheKey with
  | some cachedCode =>
      let statusCode := Int.tmod cachedCode 1000
      let body := utf8 (statusText statusCode)
      let resp := newPooledCacheResponse statusCode body
      (some (putResponse resp), cache, [.cacheLookup, .poolGet, .poolPut])
  | none =>
      match insp req with
      | none => (none, cache, [.cacheLookup, .inspectorCall])
      | some resp =>
          let cachedCode := Int.tmod resp.statusCode 1000
          (some resp, cacheSetDefault cache cacheKey cachedCode,
           [.cacheLookup, .inspectorCall, .cacheStore])

/-- HandleCacheAndForwardRequest of the source: with the cache disabled
or the conditions unmet, forward straight to the inspector; otherwise go
through GetCachedResponse. -/
def HandleCacheAndForwardRequest (a : Modsecurity) (env : TimeEnv)
    (cache : CacheState) (insp : Inspector) (req : Request) :
    Option Response × CacheState × List Ev :=
  if !a.cacheEnabled then (insp req, cache, [.inspectorCall])
  else if a.cacheConditions.Check req then
    GetCachedResponse a env cache insp req
  else (insp req, cache, [.inspectorCall])

/-! ## Body capture -/

/-- The terminal event a full read of the stream observes: none for a
clean end (including a terminal io.EOF value), or the failing error. -/
def terminalErr (s : BodyStream) : Option GoError :=
  match s.readErr with
  | some .eof => none
  | e => e

/-- io.Copy from io.LimitReader(stream, k): the bytes obtained and the
error io.Copy reports.  When the limit is reached the underlying terminal
event is never observed. -/
def limitedReadAll (s : BodyStream) (k : Nat) : List Nat × Option GoError :=
  if s.data.length < k then (s.data, terminalErr s)
  else (s.data.take k, none)

/-- Result of HandleRequestBodyMaxSize: the returned error, the status of
any http.Error response written, and the request after mutation. -/
structure GuardOut where
  retErr : Option GoError
  wroteStatus : Option Int
  req : Request
deriving DecidableEq, Repr

/-- HandleRequestBodyMaxSize of the source.  The copy reads at most
maxBodySize plus one bytes; the error of the copy is then discarded
because the source rebinds err to the result of req.Body.Close, and the
branches test that close error and the byte count. -/
def HandleRequestBodyMaxSize (maxBodySize : Int) (req : Request) : GuardOut :=
  match req.body with
  | none => ⟨none, none, req⟩
  | some s =>
      let cap := (maxBodySize + 1).toNat
      let copied := limitedReadAll s cap
      match s.closeErr with
      | some e =>
          if e = GoError.eof ∨ e = GoError.unexpectedEof then
            ⟨none, none, { req with body := some (bufferStream copied.1) }⟩
          else
            ⟨some e, some 502, req⟩
      | none =>
          if (copied.1.length : Int) ≤ maxBodySize then
            ⟨none, none, { req with body := some (bufferStream copied.1) }⟩
          else
            ⟨some (.other "http: request body too large"), some 413, req⟩

/-- Result of requestHasBody: either the Go runtime panic from reading a
nil body interface, or the returned pair plus the request after the peek
pushed bytes back. -/
inductive HasBodyResult where
  | panicNilBody
  | ok (hasBody : Bool) (err : Option GoError) (req : Request)
deriving DecidableEq, Repr

/-- The fixed peek cap of requestHasBody. -/
def maxPeekSize : Nat := 4096

/-- requestHasBody of the source: any non-zero declared length means a
body; otherwise a bounded peek on the stream, with read bytes pushed back
through a MultiReader inside a NopCloser.  With a nil body the peek reads
from the nil interface. -/
def requestHasBody (req : Request) : HasBodyResult :=
  if req.contentLength ≠ 0 then .ok true none req
  else
    match req.body with
    | none => .panicNilBody
    | some s =>
        if s.data.length < maxPeekSize then
          match terminalErr s with
          | some e =>
              .ok false (some e) { req with body := some ⟨[], s.readErr, s.closeErr⟩ }
          | none =>
              if 0 < s.data.length then
                .ok true none { req with body := some ⟨s.data, none, none⟩ }
              else
                .ok false none req
        else
          .ok true none { req with body := some ⟨s.data, s.readErr, none⟩ }

/-- Result of a body copy: the buffer returned (none when the body was
nil or the copy failed), the error, and the request afterwards. -/
structure CopyOut where
  copied : Option (List Nat)
  err : Option GoError
  req : Request
deriving DecidableEq, Repr

/-- copyRequestBody of the source: buffer the whole body and replace
req.Body with a NopCloser over a fresh buffer of the same bytes. -/
def copyRequestBody (req : Request) : CopyOut :=
  match req.body with
  | none => ⟨none, none, req⟩
  | some s =>
      match terminalErr s with
      | some e => ⟨none, some e, { req with body := some ⟨[], s.readErr, s.closeErr⟩ }⟩
      | none => ⟨some s.data, none, { req with body := some (bufferStream s.data) }⟩

/-- Result of copyRequestBodyChunked; reading a nil body is a panic since
the source takes no nil check on this path. -/
inductive ChunkedCopyResult where
  | panicNilBody
  | ok (o : CopyOut)
deriving DecidableEq, Repr

/-- copyRequestBodyChunked of the source: accumulate the body in bounded
chunks and return the buffer; unlike copyRequestBody, req.Body is left
drained and not replaced. -/
def copyRequestBodyChunked (req : Request) : ChunkedCopyResult :=
  match req.body with
  | none => .panicNilBody
  | some s =>
      match terminalErr s with
      | some e => .ok ⟨none, some e, { req with body := some ⟨[], s.readErr, s.closeErr⟩ }⟩
      | none => .ok ⟨some s.data, none, { req with body := some ⟨[], s.readErr, s.closeErr⟩ }⟩

/-! ## Coordinator -/

/-- First value of a named header, empty when absent (http.Header.Get). -/
def headerGet (h : List (String × List String)) (k : String) : String :=
  match h.find? (fun kv => kv.1 == k) with
  | some kv => firstValue kv.2
  | none => ""

/-- Modelled from the spec: isWebsocket, whose definition is absent from
src/; a request is a websocket protocol upgrade when its Upgrade header
equals websocket case-insensitively (the repository test sends the header
Upgrade with value Websocket). -/
def isWebsocket (req : Request) : Bool :=
  lowerStr (headerGet req.header "Upgrade") == "websocket"

/-- The chunked test of ServeHTTP: a non-nil transfer-encoding list whose
first element folds to chunked (nil and empty lists are conflated, as a
non-nil empty list cannot reach the plugin from the Go server). -/
def isChunked (req : Request) : Bool :=
  match req.transferEncoding with
  | [] => false
  | t :: _ => lowerStr t == "chunked"

/-- forwardResponse of the source: every header value is added to the
writer, the status code written, the body copied — the client receives
the response verbatim. -/
def forwardResponse (resp : Response) : Response := resp

/-- Successful outcome of the body phase of ServeHTTP: the original
request after its body mutations, the captured copy, and the events. -/
structure BodyPhaseOk where
  origReq : Request
  copyBytes : Option (List Nat)
  events : List Ev
deriving DecidableEq, Repr

/-- Outcome of the body phase of ServeHTTP (presence check, size guard,
copy): a panic, an error response already written, or success. -/
inductive BodyPhaseResult where
  | panicked
  | errored (resp : Response) (events : List Ev)
  | ok (o : BodyPhaseOk)
deriving DecidableEq, Repr

/-- Lines 176 to 202 of ServeHTTP: requestHasBody, then on a body the
size guard and the chunked or plain copy. -/
def bodyPhase (a : Modsecurity) (req : Request) : BodyPhaseResult :=
  match requestHasBody req with
  | .panicNilBody => .panicked
  | .ok hasBody err req1 =>
      match err with
      | some _ => .errored (httpError 500 "Internal Server Error") []
      | none =>
          if hasBody then
            let g := HandleRequestBodyMaxSize a.maxBodySize req1
            match g.retErr with
            | some _ => .errored (httpError (g.wroteStatus.getD 500) "") [.bodyCapture]
            | none =>
                if isChunked g.req then
                  match copyRequestBodyChunked g.req with
                  | .panicNilBody => .panicked
                  | .ok c =>
                      match c.err with
                      | some _ => .errored (httpError 500 "Internal Server Error") [.bodyCapture]
                      | none => .ok ⟨c.req, c.copied, [.bodyCapture]⟩
                else
                  let c := copyRequestBody g.req
                  match c.err with
                  | some _ => .errored (httpError 500 "Internal Server Error") [.bodyCapture]
                  | none => .ok ⟨c.req, c.copied, [.bodyCapture]⟩
          else .ok ⟨req1, none, []⟩

/-- The clone sent to the cache layer: req.Clone with the body swapped
for a fresh buffer over the captured bytes when a copy was made. -/
def cloneWithCopy (o : BodyPhaseOk) : Request :=
  { o.origReq with
    body := match o.copyBytes with
      | some b => some (bufferStream b)
      | none => o.origReq.body }

/-- Everything one ServeHTTP run produces: the response the client
receives, the requests handed to the next handler in order, the cache
afterwards, and the event trace. -/
structure OutData where
  clientResp : Response
  nextReqs : List Request
  newCache : CacheState
  events : List Ev
deriving DecidableEq, Repr

/-- A coordinator run: a Go runtime panic or a completed run. -/
inductive ServeOut where
  | panicked
  | done (o : OutData)
deriving DecidableEq, Repr

/-- The event trace of a run (empty for a panic). -/
def ServeOut.eventsOf : ServeOut → List Ev
  | .panicked => []
  | .done o => o.events

/-- The requests a run handed to the next handler (empty for a panic). -/
def ServeOut.nextReqsOf : ServeOut → List Request
  | .panicked => []
  | .done o => o.nextReqs

/-- ServeHTTP of the source: websocket bypass, body phase, cache layer,
then the status verdict deciding between forwarding the denial and
invoking the next handler with the original request. -/
def ServeHTTP (a : Modsecurity) (env : TimeEnv) (cache : CacheState)
    (insp : Inspector) (next : Request → Response) (req : Request) : ServeOut :=
  if isWebsocket req then .done ⟨next req, [req], cache, [.nextCall]⟩
  else
    match bodyPhase a req with
    | .panicked => .panicked
    | .errored resp evs => .done ⟨resp, [], cache, evs⟩
    | .ok bp =>
        match HandleCacheAndForwardRequest a env cache insp (cloneWithCopy bp) with
        | (none, c2, e2) =>
            .done ⟨httpError 500 "Internal Server Error", [], c2, bp.events ++ e2⟩
        | (some resp, c2, e2) =>
            if 400 ≤ resp.statusCode then
              .done ⟨forwardResponse resp, [], c2,
                     bp.events ++ e2 ++ [.statusRead, .respForward]⟩
            else
              .done ⟨next bp.origReq, [bp.origReq], c2,
                     bp.events ++ e2 ++ [.statusRead, .nextCall]⟩

/-! ## Offender jail (absent from src/, modelled from the spec) -/

/-- Modelled from the spec: the per-client jail record of OffenderJail —
offense timestamps within the window and an optional release deadline. -/
structure JailRecord where
  offenses : List Int
  deadline : Option Int
deriving DecidableEq, Repr

/-- The jail table, client identity to record. -/
abbrev JailState := List (String × JailRecord)

/-- Modelled from the spec: isJailed of OffenderJail, absent from src/; a
client is jailed exactly when its record carries a release deadline lying
in the future. -/
def isJailed (jail : JailState) (now : Int) (client : String) : Bool :=
  match jail.find? (fun kv => kv.1 == client) with
  | some kv =>
      match kv.2.deadline with
      | some d => decide (now < d)
      | none => false
  | none => false

/-- Modelled from the spec: the jail-enabled coordinator, absent from
src/ (spec section 4.5, steps 1 and 2): websocket bypass first; then,
when jail is enabled and the client is currently jailed, an immediate
too-many-requests denial with no body capture, cache access or inspector
call; otherwise processing continues exactly as the src coordinator. -/
def ServeHTTPWithJail (a : Modsecurity) (jailEnabled : Bool) (jail : JailState)
    (now : Int) (client : String) (env : TimeEnv) (cache : CacheState)
    (insp : Inspector) (next : Request → Response) (req : Request) : ServeOut :=
  if isWebsocket req then .done ⟨next req, [req], cache, [.nextCall]⟩
  else if jailEnabled && isJailed jail now client then
    .done ⟨httpError 429 "Too Many Requests", [], cache, [.jailCheck]⟩
  else
    match ServeHTTP a env cache insp next req with
    | .panicked => .panicked
    | .done o =>
        .done { o with events := (if jailEnabled then [Ev.jailCheck] else []) ++ o.events }

/-- A trace in which a pooled response is read (status inspection or
forwarding) after some pool release. -/
def usedAfterRelease : List Ev → Bool
  | [] => false
  | Ev.poolPut :: rest =>
      rest.contains Ev.statusRead || rest.contains Ev.respForward || usedAfterRelease rest
  | _ :: rest => usedAfterRelease rest

/-- Lowercase hexadecimal digit test. -/
def isLowerHexChar (c : Char) : Bool := "0123456789abcdef".data.contains c

/-! ## Concrete fixtures used by witnesses and counterexamples -/

/-- A fixed time environment (instant zero, no string parses). -/
def specEnv : TimeEnv := ⟨0, fun _ => none⟩

/-- An inspector that always allows with an empty 200. -/
def insp200 : Inspector := fun _ => some ⟨200, [], []⟩

/-- An inspector that always denies with a 403 carrying a header and body. -/
def insp403 : Inspector := fun _ => some ⟨403, [("Waf-Rule", ["901"])], utf8 "denied"⟩

/-- A pass-through handler answering a fixed 200 response. -/
def next0 : Request → Response := fun _ => ⟨200, [], utf8 "service"⟩

/-- A middleware instance with the cache disabled and a 10-byte cap. -/
def cfgPlain : Modsecurity := ⟨10, false, ⟨[], none⟩, ⟨none, [], none, none⟩⟩

/-- A middleware instance caching bodyless GETs, keying on User-Agent,
host and remote address (the repository defaults). -/
def cfgCache : Modsecurity :=
  ⟨10485760, true, ⟨["GET"], some true⟩, ⟨some true, ["User-Agent"], some true, some true⟩⟩

/-- A stream that fails immediately with a non-EOF read error while its
Close succeeds. -/
def failStream : BodyStream := ⟨[], some (.other "connection reset"), none⟩

/-- A POST declaring five body bytes over the failing stream. -/
def reqReadFail : Request := ⟨"POST", "/x", "h", "r", [], 5, [], some failStream⟩

/-- A chunked request carrying the two body bytes 104 105. -/
def reqChunked : Request :=
  ⟨"POST", "/x", "h", "r", [], -1, ["chunked"], some (bufferStream [104, 105])⟩

/-- The same request without chunked transfer encoding. -/
def reqPlainBody : Request :=
  ⟨"POST", "/x", "h", "r", [], 2, [], some (bufferStream [104, 105])⟩

/-- A bodyless GET matching the caching conditions of cfgCache. -/
def reqGet : Request :=
  ⟨"GET", "/a", "h.com", "9.9.9.9", [("User-Agent", ["ua"])], 0, [], some (bufferStream [])⟩

/-- A cache holding the verdict 403 under the key of reqGet. -/
def cacheHit : CacheState := [(generateCacheKey specEnv reqGet cfgCache.cacheKey, 403)]

/-- Whitelisting the blacklisted Cache-Control header. -/
def optsCC : CacheKeyOptions := ⟨some true, ["Cache-Control"], none, none⟩

/-- A request whose Cache-Control value is public. -/
def reqCC1 : Request := ⟨"GET", "/a", "h", "r", [("Cache-Control", ["public"])], 0, [], none⟩

/-- The same request with Cache-Control private. -/
def reqCC2 : Request := ⟨"GET", "/a", "h", "r", [("Cache-Control", ["private"])], 0, [], none⟩

/-- Whitelisting two headers, so that enumeration order matters. -/
def optsTwo : CacheKeyOptions := ⟨some true, ["User-Agent", "Accept"], none, none⟩

/-- Key options with header inclusion not enabled. -/
def optsNoHeaders : CacheKeyOptions := ⟨none, ["User-Agent"], none, none⟩

/-- Both whitelisted headers, User-Agent enumerated first. -/
def reqOrderA : Request :=
  ⟨"GET", "/p", "h", "r", [("User-Agent", ["ua"]), ("Accept", ["x"])], 0, [], none⟩

/-- The same header mapping, Accept enumerated first. -/
def reqOrderB : Request :=
  ⟨"GET", "/p", "h", "r", [("Accept", ["x"]), ("User-Agent", ["ua"])], 0, [], none⟩

/-- A jail table in which client 1.2.3.4 has a release deadline at 100. -/
def jailOne : JailState := [("1.2.3.4", ⟨[], some 100⟩)]

/-- A request with zero declared length and a nil body. -/
def reqNilBody : Request := ⟨"GET", "/", "h", "r", [], 0, [], none⟩

/-- A two-byte stream, at the cap of a two-byte limit. -/
def reqTwo : Request := ⟨"POST", "/x", "h", "r", [], 2, [], some (bufferStream [7, 8])⟩

/-- A three-byte stream, one over a two-byte limit. -/
def reqThree : Request := ⟨"POST", "/x", "h", "r", [], 3, [], some (bufferStream [7, 8, 9])⟩

/-- A middleware instance with a two-byte body cap and the cache off. -/
def cfgTwo : Modsecurity := ⟨2, false, ⟨[], none⟩, ⟨none, [], none, none⟩⟩

/-! ## Digest shape lemmas -/

theorem beBytes_length (c : Nat) : ∀ n, (beBytes c n).length = c := by
  induction c with
  | zero => intro n; rfl
  | succ c ih => intro n; simp [beBytes, ih]

theorem sha256_length (msg : List Nat) : (sha256 msg).length = 32 := by
  simp [sha256, beBytes_length]

theorem hexFlat_length (l : List Nat) : ((l.map byteHex).flatten).length = 2 * l.length := by
  induction l with
  | nil => rfl
  | cons b t ih => simp [byteHex, ih]; omega

theorem bytesToHex_length (l : List Nat) : (bytesToHex l).length = 2 * l.length := by
  show ((l.map byteHex).flatten).length = 2 * l.length
  exact hexFlat_length l

theorem hexChar_lower (n : Nat) : isLowerHexChar (hexChar n) = true := by
  match n with
  | 0 | 1 | 2 | 3 | 4 | 5 | 6 | 7 | 8 | 9 | 10 | 11 | 12 | 13 | 14 | 15 => rfl
  | _ + 16 => rfl

theorem hexFlat_lower (l : List Nat) :
    ((l.map byteHex).flatten).all isLowerHexChar = true := by
  induction l with
  | nil => rfl
  | cons b t ih => simp [byteHex, hexChar_lower, ih]

theorem bytesToHex_lower (l : List Nat) :
    (bytesToHex l).data.all isLowerHexChar = true := hexFlat_lower l

theorem isHeaderBlacklisted_auth (env : TimeEnv) (x : String) :
    isHeaderBlacklisted env "Authorization" x = true := rfl

theorem isHeaderBlacklisted_setCookie (env : TimeEnv) (x : String) :
    isHeaderBlacklisted env "Set-Cookie" x = true := rfl

/-! ## Claim C3 -/

set_option maxRecDepth 100000 in
/-- C3 counterexample: Cache-Control is on the blacklist and is
whitelisted in the options, yet two requests that differ only in its
value (public versus private, neither containing no-store) produce
different cache keys — the blacklist is not absolute for key
composition. -/
theorem C3_blacklisted_value_in_key_cex :
    blacklistHeaders "Cache-Control" = true ∧
    contains optsCC.headers "Cache-Control" = true ∧
    generateCacheKey specEnv reqCC1 optsCC ≠ generateCacheKey specEnv reqCC2 optsCC := by
  refine ⟨rfl, rfl, ?_⟩
  decide

/-- C3 amended: a header on the blacklist contributes its value to the
key only when isHeaderBlacklisted deems its value cacheable; for the
unconditionally blacklisted names Authorization and Set-Cookie no value
ever contributes, so two requests differing only in such a header's
values derive the same cache key. -/
theorem C3_unconditional_blacklist_excluded (env : TimeEnv) (opts : CacheKeyOptions)
    (req : Request) (pre post : List (String × List String)) (n : String)
    (v1 v2 : List String) (hn : n = "Authorization" ∨ n = "Set-Cookie") :
    generateCacheKey env { req with header := pre ++ (n, v1) :: post } opts =
    generateCacheKey env { req with header := pre ++ (n, v2) :: post } opts := by
  have hc : ∀ v : List String, headerContribution env opts (n, v) = [] := by
    intro v
    rcases hn with h | h <;> subst h
    · simp [headerContribution, isHeaderBlacklisted_auth]
    · simp [headerContribution, isHeaderBlacklisted_setCookie]
  simp only [generateCacheKey, generateCacheKeyBytes, List.map_append, List.map_cons,
             List.flatten_append, List.flatten_cons, hc v1, hc v2]

/-- C3 amended witness at a concrete input: Authorization values a and b
give the same key. -/
theorem C3_unconditional_blacklist_excluded_witness :
    generateCacheKey specEnv
        { reqCC1 with header := [] ++ ("Authorization", ["a"]) :: [] }
        ⟨some true, ["Authorization"], none, none⟩ =
    generateCacheKey specEnv
        { reqCC1 with header := [] ++ ("Authorization", ["b"]) :: [] }
        ⟨some true, ["Authorization"], none, none⟩ :=
  C3_unconditional_blacklist_excluded specEnv ⟨some true, ["Authorization"], none, none⟩
    reqCC1 [] [] "Authorization" ["a"] ["b"] (Or.inl rfl)

/-! ## Claim C6 -/

set_option maxRecDepth 100000 in
/-- C6 counterexample: the two requests carry the same header mapping (a
permutation), the same method, URI, host and remote address, yet the two
enumeration orders the Go map range may produce give different digests:
generateCacheKey is not independent of the enumeration order once two
distinct whitelisted headers are present. -/
theorem C6_enumeration_order_cex :
    List.Perm reqOrderA.header reqOrderB.header ∧
    reqOrderA.method = reqOrderB.method ∧
    reqOrderA.requestURI = reqOrderB.requestURI ∧
    reqOrderA.host = reqOrderB.host ∧
    reqOrderA.remoteAddr = reqOrderB.remoteAddr ∧
    generateCacheKey specEnv reqOrderA optsTwo ≠ generateCacheKey specEnv reqOrderB optsTwo := by
  refine ⟨by decide, rfl, rfl, rfl, rfl, ?_⟩
  decide

/-- C6 amended: generateCacheKey always yields a 64-character lowercase
hexadecimal digest and is deterministic given the header enumeration
order; it is independent of that order whenever header inclusion is not
enabled or the whitelist is empty (with two or more whitelisted headers
present, different enumeration orders of the same mapping can differ, as
the counterexample shows). -/
theorem C6_key_shape_and_order (env : TimeEnv) (opts : CacheKeyOptions) (req : Request)
    (hdrs1 hdrs2 : List (String × List String))
    (h : opts.includeHeaders ≠ some true ∨ opts.headers = []) :
    (generateCacheKey env req opts).length = 64 ∧
    (generateCacheKey env req opts).data.all isLowerHexChar = true ∧
    generateCacheKey env { req with header := hdrs1 } opts =
      generateCacheKey env { req with header := hdrs2 } opts := by
  refine ⟨?_, bytesToHex_lower _, ?_⟩
  · rw [generateCacheKey, bytesToHex_length, sha256_length]
  · rcases h with h | h
    · simp [generateCacheKey, generateCacheKeyBytes, h]
    · simp [generateCacheKey, generateCacheKeyBytes, h]

/-- C6 amended witness at a concrete input: with header inclusion
disabled the digest has the stated shape and ignores enumeration. -/
theorem C6_key_shape_and_order_witness :
    (generateCacheKey specEnv reqCC1 optsNoHeaders).length = 64 ∧
    (generateCacheKey specEnv reqCC1 optsNoHeaders).data.all isLowerHexChar = true ∧
    generateCacheKey specEnv { reqCC1 with header := [("User-Agent", ["x"])] } optsNoHeaders =
      generateCacheKey specEnv { reqCC1 with header := [] } optsNoHeaders :=
  C6_key_shape_and_order specEnv optsNoHeaders reqCC1 [("User-Agent", ["x"])] []
    (Or.inl (by decide))

/-! ## Body guard lemmas -/

theorem guard_accepts (m : Int) (req : Request) (s : BodyStream)
    (hb : req.body = some s) (hc : s.closeErr = none)
    (hlen : (s.data.length : Int) ≤ m) :
    HandleRequestBodyMaxSize m req =
      ⟨none, none, { req with body := some (bufferStream s.data) }⟩ := by
  have hcap : s.data.length < (m + 1).toNat := by omega
  simp [HandleRequestBodyMaxSize, hb, hc, limitedReadAll, hcap, hlen]

theorem guard_rejects (m : Int) (req : Request) (s : BodyStream)
    (hb : req.body = some s) (hc : s.closeErr = none)
    (hlen : m + 1 ≤ (s.data.length : Int)) :
    HandleRequestBodyMaxSize m req =
      ⟨some (.other "http: request body too large"), some 413, req⟩ := by
  by_cases hlt : s.data.length < (m + 1).toNat
  · have : ¬ ((s.data.length : Int) ≤ m) := by omega
    simp [HandleRequestBodyMaxSize, hb, hc, limitedReadAll, hlt, this]
  · have hmin : ¬ (((s.data.take (m + 1).toNat).length : Int) ≤ m) := by
      simp only [List.length_take]
      omega
    simp [HandleRequestBodyMaxSize, hb, hc, limitedReadAll, hlt, hmin]
    omega

/-! ## Claim C2 -/

/-- C2: with a well-behaved stream (its Close succeeds), a body of
exactly maxBodySize bytes is accepted — no error, no error response, the
body replaced by a fully buffered re-readable copy — while a body of
maxBodySize plus one or more bytes produces the 413 entity-too-large
response and a non-nil error, and such a request is answered 413 by the
coordinator with no inspector call and no pass-through. -/
theorem C2_body_size_boundary (m : Int) (req : Request) (s : BodyStream)
    (hb : req.body = some s) (hc : s.closeErr = none) :
    ((s.data.length : Int) = m →
      HandleRequestBodyMaxSize m req =
        ⟨none, none, { req with body := some (bufferStream s.data) }⟩) ∧
    (m + 1 ≤ (s.data.length : Int) →
      HandleRequestBodyMaxSize m req =
        ⟨some (.other "http: request body too large"), some 413, req⟩) ∧
    (∀ (a : Modsecurity) (env : TimeEnv) (cache : CacheState) (insp : Inspector)
      (next : Request → Response), a.maxBodySize = m → isWebsocket req = false →
      req.contentLength ≠ 0 → m + 1 ≤ (s.data.length : Int) →
      ServeHTTP a env cache insp next req =
        .done ⟨httpError 413 "", [], cache, [Ev.bodyCapture]⟩) := by
  refine ⟨fun h => guard_accepts m req s hb hc (le_of_eq h),
          fun h => guard_rejects m req s hb hc h, ?_⟩
  intro a env cache insp next hm hws hcl hlen
  have hhb : requestHasBody req = .ok true none req := by
    simp [requestHasBody, hcl]
  have hg := guard_rejects m req s hb hc hlen
  simp [ServeHTTP, hws, bodyPhase, hhb, hm, hg]

/-- C2 witness: cap two; a two-byte body is accepted and buffered, a
three-byte body is rejected with 413, and the coordinator answers 413
without touching cache, inspector or pass-through. -/
theorem C2_body_size_boundary_witness :
    HandleRequestBodyMaxSize 2 reqTwo =
      ⟨none, none, { reqTwo with body := some (bufferStream [7, 8]) }⟩ ∧
    HandleRequestBodyMaxSize 2 reqThree =
      ⟨some (.other "http: request body too large"), some 413, reqThree⟩ ∧
    ServeHTTP cfgTwo specEnv [] insp200 next0 reqThree =
      .done ⟨httpError 413 "", [], [], [Ev.bodyCapture]⟩ :=
  ⟨(C2_body_size_boundary 2 reqTwo (bufferStream [7, 8]) rfl rfl).1 (by decide),
   (C2_body_size_boundary 2 reqThree (bufferStream [7, 8, 9]) rfl rfl).2.1 (by decide),
   (C2_body_size_boundary 2 reqThree (bufferStream [7, 8, 9]) rfl rfl).2.2
     cfgTwo specEnv [] insp200 next0 rfl rfl (by decide) (by decide)⟩

/-! ## Claim C1 -/

/-- C1: whenever the body phase completes and the cache layer yields a
response, a status below 400 makes the coordinator invoke the downstream
pass-through exactly once, with the original request, and return its
response unchanged, while a status of 400 or more makes it skip the
pass-through entirely and forward that response — status, headers and
body — verbatim to the caller. -/
theorem C1_verdict_dispatch (a : Modsecurity) (env : TimeEnv) (cache : CacheState)
    (insp : Inspector) (next : Request → Response) (req : Request) (bp : BodyPhaseOk)
    (resp : Response) (c2 : CacheState) (e2 : List Ev)
    (hws : isWebsocket req = false)
    (hbp : bodyPhase a req = .ok bp)
    (hcf : HandleCacheAndForwardRequest a env cache insp (cloneWithCopy bp) =
      (some resp, c2, e2)) :
    (resp.statusCode < 400 →
      ServeHTTP a env cache insp next req =
        .done ⟨next bp.origReq, [bp.origReq], c2,
               bp.events ++ e2 ++ [Ev.statusRead, Ev.nextCall]⟩) ∧
    (400 ≤ resp.statusCode →
      ServeHTTP a env cache insp next req =
        .done ⟨forwardResponse resp, [], c2,
               bp.events ++ e2 ++ [Ev.statusRead, Ev.respForward]⟩) := by
  constructor
  · intro h
    simp only [ServeHTTP, hws, Bool.false_eq_true, if_false, hbp, hcf]
    rw [if_neg (by omega)]
  · intro h
    simp only [ServeHTTP, hws, Bool.false_eq_true, if_false, hbp, hcf]
    rw [if_pos h]

/-- C1 witness: a denying inspector (403 with a header and body) is
forwarded verbatim and the pass-through is never invoked. -/
theorem C1_verdict_dispatch_witness :
    ServeHTTP cfgPlain specEnv [] insp403 next0 reqGet =
      .done ⟨forwardResponse ⟨403, [("Waf-Rule", ["901"])], utf8 "denied"⟩, [], [],
             [Ev.inspectorCall, Ev.statusRead, Ev.respForward]⟩ :=
  (C1_verdict_dispatch cfgPlain specEnv [] insp403 next0 reqGet ⟨reqGet, none, []⟩
    ⟨403, [("Waf-Rule", ["901"])], utf8 "denied"⟩ [] [Ev.inspectorCall]
    rfl rfl rfl).2 (by decide)

/-! ## Claim C4 -/

/-- C4 (refuting the claim, exposing the code bug): a request whose body
stream fails with a non-EOF read error while its Close succeeds is
accepted by HandleRequestBodyMaxSize — nil error, no error response, the
body silently replaced by the truncated (here empty) buffer — and the
coordinator then forwards the request to the inspector, because the
source rebinds the io.Copy error to the result of req.Body.Close before
testing it. -/
theorem C4_read_error_silently_accepted :
    failStream.readErr = some (GoError.other "connection reset") ∧
    (HandleRequestBodyMaxSize 10 reqReadFail).retErr = none ∧
    (HandleRequestBodyMaxSize 10 reqReadFail).wroteStatus = none ∧
    (HandleRequestBodyMaxSize 10 reqReadFail).req.body = some (bufferStream []) ∧
    (ServeHTTP cfgPlain specEnv [] insp200 next0 reqReadFail).eventsOf.contains
      Ev.inspectorCall = true :=
  ⟨rfl, rfl, rfl, rfl, rfl⟩

/-! ## Claim C5 -/

/-- C5 (refuting the claim for the chunked path, exposing the code bug):
after capture of a non-chunked request the pass-through receives the
complete buffered body, but after capture of a chunked request it
receives a drained, empty body, because copyRequestBodyChunked never
replaces req.Body with the accumulated buffer. -/
theorem C5_chunked_body_not_replenished :
    (ServeHTTP cfgPlain specEnv [] insp200 next0 reqPlainBody).nextReqsOf =
      [{ reqPlainBody with body := some (bufferStream [104, 105]) }] ∧
    (ServeHTTP cfgPlain specEnv [] insp200 next0 reqChunked).nextReqsOf =
      [{ reqChunked with body := some (bufferStream []) }] :=
  ⟨rfl, rfl⟩

/-! ## Claim C7 -/

set_option maxRecDepth 100000 in
/-- C7 (refuting the claim, exposing the code bug): on a cache hit the
deferred putResponse runs when GetCachedResponse returns, before the
coordinator inspects the status and forwards, so the trace reads the
pooled response after its release, and the forwarded hit carries an
empty header map although newPooledCacheResponse had set Status-Text. -/
theorem C7_pool_release_before_use :
    ServeHTTP cfgCache specEnv cacheHit insp200 next0 reqGet =
      .done ⟨⟨403, [], utf8 "Forbidden"⟩, [], cacheHit,
             [Ev.cacheLookup, Ev.poolGet, Ev.poolPut, Ev.statusRead, Ev.respForward]⟩ ∧
    usedAfterRelease
      [Ev.cacheLookup, Ev.poolGet, Ev.poolPut, Ev.statusRead, Ev.respForward] = true ∧
    (newPooledCacheResponse 403 (utf8 (statusText 403))).header =
      [("Status-Text", ["Forbidden"])] :=
  ⟨rfl, rfl, rfl⟩

/-! ## Claim C8 -/

/-- C8: the cache layer touches the cache (lookup or store) exactly when
the global cache flag is set and the conditions check passes; in every
other case the request goes straight to the inspector with the cache
state untouched. -/
theorem C8_cache_applicability (a : Modsecurity) (env : TimeEnv) (cache : CacheState)
    (insp : Inspector) (req : Request) :
    (((HandleCacheAndForwardRequest a env cache insp req).2.2.contains Ev.cacheLookup ||
      (HandleCacheAndForwardRequest a env cache insp req).2.2.contains Ev.cacheStore) =
      (a.cacheEnabled && a.cacheConditions.Check req)) ∧
    ((a.cacheEnabled && a.cacheConditions.Check req) = false →
      HandleCacheAndForwardRequest a env cache insp req =
        (insp req, cache, [Ev.inspectorCall])) := by
  constructor
  · unfold HandleCacheAndForwardRequest
    cases hen : a.cacheEnabled
    · simp
    · cases hck : a.cacheConditions.Check req
      · simp [hck]
      · unfold GetCachedResponse
        cases hg : cacheGet cache (generateCacheKey env req a.cacheKey)
        · cases hi : insp req <;> simp [hck, hg, hi]
        · simp [hck, hg]
  · intro h
    unfold HandleCacheAndForwardRequest
    cases hen : a.cacheEnabled
    · simp
    · rw [hen] at h
      simp only [Bool.true_and] at h
      simp [h]

/-- C8 witness: with the cache disabled the request goes straight to the
inspector and the cache is untouched. -/
theorem C8_cache_applicability_witness :
    HandleCacheAndForwardRequest cfgPlain specEnv [] insp200 reqGet =
      (insp200 reqGet, [], [Ev.inspectorCall]) :=
  (C8_cache_applicability cfgPlain specEnv [] insp200 reqGet).2 (by decide)

/-! ## Claim C9 -/

/-- C9 (the jail logic, absent from src/, is modelled from the spec):
with jail enabled, a non-websocket request from a currently jailed client
is answered immediately with the too-many-requests denial, the cache is
left untouched, and the trace carries only the jail check — no body
capture, no cache lookup, no inspector call, no pass-through. -/
theorem C9_jail_short_circuit (a : Modsecurity) (jail : JailState) (now : Int)
    (client : String) (env : TimeEnv) (cache : CacheState) (insp : Inspector)
    (next : Request → Response) (req : Request)
    (hws : isWebsocket req = false) (hj : isJailed jail now client = true) :
    ServeHTTPWithJail a true jail now client env cache insp next req =
      .done ⟨httpError 429 "Too Many Requests", [], cache, [Ev.jailCheck]⟩ := by
  simp [ServeHTTPWithJail, hws, hj]

/-- C9 witness: a client with a future release deadline is short
circuited at a concrete input. -/
theorem C9_jail_short_circuit_witness :
    ServeHTTPWithJail cfgCache true jailOne 0 "1.2.3.4" specEnv [] insp200 next0 reqGet =
      .done ⟨httpError 429 "Too Many Requests", [], [], [Ev.jailCheck]⟩ :=
  C9_jail_short_circuit cfgCache jailOne 0 "1.2.3.4" specEnv [] insp200 next0 reqGet
    rfl rfl

/-! ## Claim C10 -/

theorem requestHasBody_some (req : Request) (s : BodyStream) (h : req.body = some s) :
    ∃ hb err req1 s1, requestHasBody req = .ok hb err req1 ∧ req1.body = some s1 := by
  by_cases hcl : req.contentLength ≠ 0
  · exact ⟨true, none, req, s, by simp [requestHasBody, hcl], h⟩
  · by_cases hlt : s.data.length < maxPeekSize
    · cases ht : terminalErr s with
      | none =>
          by_cases hpos : 0 < s.data.length
          · exact ⟨true, none, { req with body := some ⟨s.data, none, none⟩ },
              ⟨s.data, none, none⟩,
              by simp [requestHasBody, hcl, h, hlt, ht, hpos], rfl⟩
          · exact ⟨false, none, req, s,
              by simp [requestHasBody, hcl, h, hlt, ht, hpos], h⟩
      | some e =>
          exact ⟨false, some e, { req with body := some ⟨[], s.readErr, s.closeErr⟩ },
            ⟨[], s.readErr, s.closeErr⟩,
            by simp [requestHasBody, hcl, h, hlt, ht], rfl⟩
    · exact ⟨true, none, { req with body := some ⟨s.data, s.readErr, none⟩ },
        ⟨s.data, s.readErr, none⟩,
        by simp [requestHasBody, hcl, h, hlt], rfl⟩

theorem guard_body_some (m : Int) (r : Request) (s1 : BodyStream) (h : r.body = some s1) :
    ∃ s2, (HandleRequestBodyMaxSize m r).req.body = some s2 := by
  cases hce : s1.closeErr with
  | some e =>
      by_cases he : e = GoError.eof ∨ e = GoError.unexpectedEof
      · exact ⟨bufferStream (limitedReadAll s1 (m + 1).toNat).1,
          by simp [HandleRequestBodyMaxSize, h, hce, he]⟩
      · exact ⟨s1, by simp [HandleRequestBodyMaxSize, h, hce, he]⟩
  | none =>
      by_cases hl : (((limitedReadAll s1 (m + 1).toNat).1.length : Int) ≤ m)
      · exact ⟨bufferStream (limitedReadAll s1 (m + 1).toNat).1,
          by simp [HandleRequestBodyMaxSize, h, hce, hl]⟩
      · exact ⟨s1, by simp [HandleRequestBodyMaxSize, h, hce, hl]⟩

theorem bodyPhase_no_panic (a : Modsecurity) (req : Request) (s : BodyStream)
    (h : req.body = some s) : bodyPhase a req ≠ .panicked := by
  obtain ⟨hb, err, req1, s1, hreq, hbody⟩ := requestHasBody_some req s h
  unfold bodyPhase
  rw [hreq]
  cases err
  · cases hb
    · simp
    · cases hre : (HandleRequestBodyMaxSize a.maxBodySize req1).retErr
      · obtain ⟨s2, hs2⟩ := guard_body_some a.maxBodySize req1 s1 hbody
        by_cases hch : isChunked (HandleRequestBodyMaxSize a.maxBodySize req1).req
        · simp only [hre, hch, if_true]
          simp only [copyRequestBodyChunked, hs2]
          cases terminalErr s2 <;> simp
        · simp only [hre, hch, if_false]
          cases hcp : (copyRequestBody (HandleRequestBodyMaxSize a.maxBodySize req1).req).err <;>
            simp [hcp]
      · simp [hre]
  · simp

/-- C10: with a zero declared content length and an absent (nil) body
the body-presence check reads from the nil stream — the Go nil
dereference — while every request carrying an actual stream (empty
streams included) is processed by ServeHTTP without any panic: the
coordinator is total exactly under the non-nil-body precondition. -/
theorem C10_nil_body_totality :
    (∀ req : Request, req.contentLength = 0 → req.body = none →
      requestHasBody req = .panicNilBody) ∧
    (∀ (a : Modsecurity) (env : TimeEnv) (cache : CacheState) (insp : Inspector)
      (next : Request → Response) (req : Request) (s : BodyStream),
      req.body = some s → ServeHTTP a env cache insp next req ≠ .panicked) := by
  constructor
  · intro req h1 h2
    simp [requestHasBody, h1, h2]
  · intro a env cache insp next req s h
    unfold ServeHTTP
    by_cases hws : isWebsocket req
    · simp [hws]
    · cases hbp : bodyPhase a req with
      | panicked => exact absurd hbp (bodyPhase_no_panic a req s h)
      | errored resp evs => simp [hws, hbp]
      | ok bp =>
          rcases hcf : HandleCacheAndForwardRequest a env cache insp (cloneWithCopy bp) with
            ⟨ro, c2, e2⟩
          cases ro
          · simp [hws, hbp, hcf]
          · simp [hws, hbp, hcf]
            split <;> simp

/-- C10 witness: the nil-body zero-length request panics the presence
check, and a concrete request with a real stream runs to completion. -/
theorem C10_nil_body_totality_witness :
    requestHasBody reqNilBody = .panicNilBody ∧
    ServeHTTP cfgPlain specEnv [] insp200 next0 reqPlainBody ≠ .panicked :=
  ⟨C10_nil_body_totality.1 reqNilBody rfl rfl,
   C10_nil_body_totality.2 cfgPlain specEnv [] insp200 next0 reqPlainBody
     (bufferStream [104, 105]) rfl⟩

end ModsecPlugin
